import Mathlib

/-!
Shallow embedding of `cab.py` ("cap: Capture Audio from background"), a
toggle-style background audio recorder.  One invocation either starts a
capture session (spawning `parec`, persisting session metadata to
`_info.json`) or, if a `parec` process is found running, stops it and
converts the raw buffer `_raw_audio.raw` with `ffmpeg`.

The embedding models:
  * the argparse namespace `args` and the module global `PID` as explicit
    state (`Args`, `ArgsPid`);
  * Python values flowing through `setattr` / JSON / dotenv as `PyVal`;
  * the on-disk state (raw buffer file, `_info.json`) as `Disk`;
  * external effects (pgrep output, parec launch, os.kill, ffmpeg outcome)
    as fields of a `World` parameter;
  * an uncaught Python exception as the `.err` constructor of
    `MainOutcome`, carrying the disk state at the moment of the raise.
-/

/-- A Python value as it flows through this program: `None`, a string,
an int, or a bool (argparse's `store_true` flag). -/
inductive PyVal where
  | none
  | str (s : String)
  | int (n : Int)
  | bool (b : Bool)
deriving DecidableEq, Repr

/-- Python truthiness restricted to the values above: `None`, `""`, `0`
and `False` are falsy. -/
def truthy : PyVal → Bool
  | .none => false
  | .str s => s != ""
  | .int n => n != 0
  | .bool b => b

/-- Python `str()` on the values above (used by `save_session_info`'s
`str(args.destination)`). -/
def pyStr : PyVal → String
  | .none => "None"
  | .str s => s
  | .int n => toString n
  | .bool b => if b then "True" else "False"

/-- The argparse namespace: flags `--file_name`, `--destination`,
`-f` alias `--format` (default `"mp3"`), `--env` (store_true), `--input`.
`setattr` can store any Python value in any attribute, so every field is
a `PyVal`. -/
structure Args where
  file_name : PyVal
  destination : PyVal
  format : PyVal
  env : PyVal
  input : PyVal
deriving DecidableEq, Repr

/-- The mutable state touched by `add_argument`: the argparse namespace
`args` plus the module-level global `PID`. -/
structure ArgsPid where
  args : Args
  PID : PyVal
deriving DecidableEq, Repr

/-- `vars(args).keys()`: the attribute names of the argparse namespace. -/
def args_collection : List String :=
  ["file_name", "destination", "format", "env", "input"]

/-- `setattr(args, arg, value)` for the five known attribute names. -/
def setArg (a : Args) (arg : String) (v : PyVal) : Args :=
  if arg = "file_name" then { a with file_name := v }
  else if arg = "destination" then { a with destination := v }
  else if arg = "format" then { a with format := v }
  else if arg = "env" then { a with env := v }
  else if arg = "input" then { a with input := v }
  else a

/-- Python `str.lower()`, modelled character-wise (adequate for the
ASCII configuration keys this program handles). -/
def pyLower (s : String) : String := ⟨s.data.map Char.toLower⟩

/-- `add_argument(arg, value, expected_keys)` from cab.py lines 59-65:
lower-cases the key, unconditionally overwrites the namespace attribute
when the key is recognized, and captures a `pid` key into the global
`PID`. -/
def add_argument (arg : String) (value : PyVal) (expected_keys : List String)
    (st : ArgsPid) : ArgsPid :=
  let arg := pyLower arg
  let st :=
    if expected_keys.contains arg then { st with args := setArg st.args arg value }
    else st
  if arg = "pid" then { st with PID := value } else st

/-- Contents of the session-info file `_info.json`: absent, present but
not valid JSON, or a JSON object (a dict, kept as an ordered key-value
list the way `json.load` returns it and `.items()` iterates it). -/
inductive InfoFile where
  | absent
  | corrupt
  | record (kvs : List (String × PyVal))
deriving DecidableEq, Repr

/-- On-disk state: whether `_raw_audio.raw` exists, and the state of
`_info.json`. -/
structure Disk where
  raw : Bool
  info : InfoFile
deriving DecidableEq, Repr

/-- Python exceptions that can escape the functions modelled here. -/
inductive PyErr where
  /-- `json.JSONDecodeError` from `json.load` on an unparsable file. -/
  | jsonDecodeError
  /-- `Popen(["parec", ...])` failed (missing binary, bad device). -/
  | launchError
  /-- `subprocess.run(["ffmpeg", ...])` could not run the binary at all
  (`FileNotFoundError`), as opposed to a non-zero exit. -/
  | encoderNotFound
  /-- `TypeError` from `Path(None)` / `Path(<int>)`. -/
  | typeError
  /-- `ValueError` from `int(pid)` on a non-numeric string. -/
  | valueError
deriving DecidableEq, Repr

/-- `load_session_info()` (cab.py lines 82-87): `None` when `_info.json`
is absent, the parsed dict when well-formed; `json.load` raises (and
nothing catches) `JSONDecodeError` when the file is unparsable. -/
def load_session_info : InfoFile → Except PyErr (Option (List (String × PyVal)))
  | .absent => .ok Option.none
  | .corrupt => .error .jsonDecodeError
  | .record kvs => .ok (some kvs)

/-- `parse_args(name, is_env)` (cab.py lines 90-101).  `envVals` is the
dotenv content of the file named by `name`; `info` is the state of
`_info.json`.  When `is_env and args.env`, the dotenv pairs are folded
into the namespace; otherwise (whatever `name` was) the session-info
file is loaded and its items folded in (`session_info or {}`). -/
def parse_args (envVals : List (String × PyVal)) (is_env : Bool)
    (st : ArgsPid) (info : InfoFile) : Except PyErr ArgsPid :=
  if is_env && truthy st.args.env then
    .ok (envVals.foldl (fun s kv => add_argument kv.1 kv.2 args_collection s) st)
  else
    match load_session_info info with
    | .error e => .error e
    | .ok session_info =>
      let items := (session_info.getD []).map id
      .ok (items.foldl (fun s kv => add_argument kv.1 kv.2 args_collection s) st)

/-- The bytes `pgrep -f parec` writes to stdout: each matching pid
followed by a newline; empty when nothing matches. -/
def pgrepOutput (pids : List String) : List Char :=
  pids.foldr (fun p acc => p.data ++ '\n' :: acc) []

/-- `check_process_exists()` (cab.py lines 104-108): reads the whole of
pgrep's stdout, decodes it, and does `.replace("\n", "")` — which removes
every newline character. -/
def check_process_exists (pids : List String) : String :=
  ⟨(pgrepOutput pids).filter (fun c => c ≠ '\n')⟩

/-- Path of the raw buffer file as it appears in the ffmpeg argv
(`str(RAW_FILE_NAME)`). -/
def RAW_FILE_NAME : String := "_raw_audio.raw"

/-- `convert_audio(file_name)` (cab.py lines 116-134): the exact argv
passed to `subprocess.run`.  Note the requested `--format` value is not
part of it; only the output path determines the encoding. -/
def convert_audio (file_name : String) : List String :=
  ["ffmpeg", "-f", "s16le", "-ar", "48000", "-ac", "2", "-i", RAW_FILE_NAME, file_name]

/-- Log levels of the `logging` module as used here. -/
inductive LogLevel where
  | info
  | warning
  | error
deriving DecidableEq, Repr

/-- `stop_recording(pid)` (cab.py lines 155-161): sends SIGTERM; a
`ProcessLookupError` (process already gone, `alive = false`) is caught
and logged at error level.  The function is total: no exception
escapes it. -/
def stop_recording (pid : Int) (alive : Bool) : LogLevel × String :=
  if alive then (.info, "Recording stopped (PID " ++ toString pid ++ ")")
  else (.error, "Process with PID " ++ toString pid ++ " not found")

/-- `os.remove(RAW_FILE_NAME)`: fails (FileNotFoundError) when the raw
buffer is absent. -/
def removeRaw (d : Disk) : Except Unit Disk :=
  if d.raw then .ok { d with raw := false } else .error ()

/-- `os.remove(INFO_FILE)`: fails (FileNotFoundError) when `_info.json`
is absent. -/
def removeInfo (d : Disk) : Except Unit Disk :=
  match d.info with
  | .absent => .error ()
  | _ => .ok { d with info := .absent }

/-- `clean_session()` (cab.py lines 164-170): `os.remove` of the raw
buffer, then of the info file, inside one try/except that catches any
exception and logs a warning.  An exception at the first remove skips
the second. -/
def clean_session (d : Disk) : Disk :=
  match removeRaw d with
  | .error _ => d
  | .ok d1 =>
    match removeInfo d1 with
    | .error _ => d1
    | .ok d2 => d2

/-- Outcome of the `subprocess.run(["ffmpeg", ...], check=True)` call. -/
inductive ConvOutcome where
  /-- Encoder ran and exited 0. -/
  | success
  /-- Encoder exited non-zero: `CalledProcessError` (caught in `main`). -/
  | calledProcessError
  /-- Encoder binary could not be run: `FileNotFoundError` (not caught). -/
  | fileNotFound
deriving DecidableEq, Repr

/-- Everything outside the program that an invocation observes or
triggers: initial disk state, dotenv content of `.env`, the pids pgrep
prints, whether the parec launch succeeds and the pid it gets, whether
the process is still alive when killed, the ffmpeg outcome, the
timestamp used for the default name, and the home directory. -/
structure World where
  disk : Disk
  envFile : List (String × PyVal)
  pgrepPids : List String
  launchOk : Bool
  launchedPid : Int
  killSucceeds : Bool
  conv : ConvOutcome
  now : String
  home : String
deriving DecidableEq, Repr

/-- Observable result of a `main()` invocation that finished without an
uncaught exception. -/
structure MainResult where
  args : Args
  PID : PyVal
  disk : Disk
  notifs : List (String × String)
  ffmpegCalls : List (List String)
  savedRecord : Option (List (String × PyVal))
  stopLog : Option (LogLevel × String)
  signaled : List Int
deriving DecidableEq, Repr

/-- A `main()` invocation either returns normally or dies with an
uncaught exception; in the latter case the disk state at the raise is
carried along. -/
inductive MainOutcome where
  | ok (r : MainResult)
  | err (e : PyErr) (disk : Disk)
deriving DecidableEq, Repr

/-- Value of a decimal digit character. -/
def digitVal (c : Char) : Option Nat :=
  if '0' ≤ c ∧ c ≤ '9' then some (c.toNat - 48) else Option.none

/-- Decimal value of a non-empty all-digit character list. -/
def digitsVal : List Char → Option Nat
  | [] => Option.none
  | ds => ds.foldl
      (fun acc c =>
        match acc, digitVal c with
        | some n, some dv => some (10 * n + dv)
        | _, _ => Option.none)
      (some 0)

/-- Python `int(s)` on the pgrep-derived string: an optional sign
followed by decimal digits; anything else raises `ValueError`
(modelled as an empty result). -/
def pyInt (s : String) : Option Int :=
  match s.data with
  | '-' :: ds => (digitsVal ds).map (fun n => -(n : Int))
  | ds => (digitsVal ds).map (fun n => (n : Int))

/-- `main()` (cab.py lines 173-199), faithful to the source's order:
`parse_args(".env", True)`; probe; on the start path generate defaults,
open the raw file (creating/truncating it) and launch parec, then
persist the record; on the stop path `parse_args(INFO_FILE)` (which
re-reads `_info.json`), signal the probed pid, build the output path,
run ffmpeg catching only `CalledProcessError`, and clean the session. -/
def main' (a : Args) (w : World) : MainOutcome :=
  match parse_args w.envFile true ⟨a, .none⟩ w.disk.info with
  | .error e => .err e w.disk
  | .ok st =>
    let pid := check_process_exists w.pgrepPids
    if pid = "" then
      let args1 :=
        if truthy st.args.file_name then st.args
        else { st.args with file_name := .str ("audio_" ++ w.now ++ ".mp3") }
      let args2 :=
        if truthy args1.destination then args1
        else { args1 with destination := .str w.home }
      -- start_recording: `open(RAW_FILE_NAME, "wb")` creates/truncates the
      -- raw buffer before Popen is attempted
      let disk1 : Disk := { w.disk with raw := true }
      if w.launchOk then
        let newRecord := [("pid", PyVal.int w.launchedPid),
                          ("file_name", args2.file_name),
                          ("destination", PyVal.str (pyStr args2.destination)),
                          ("format", args2.format)]
        .ok { args := args2, PID := st.PID,
              disk := { disk1 with info := .record newRecord },
              notifs := [("Recording Started", "Capturing audio...")],
              ffmpegCalls := [], savedRecord := some newRecord,
              stopLog := Option.none, signaled := [] }
      else
        .err .launchError disk1
    else
      match parse_args w.envFile false st w.disk.info with
      | .error e => .err e w.disk
      | .ok st2 =>
        match pyInt pid with
        | Option.none => .err .valueError w.disk
        | some p =>
          let slog := stop_recording p w.killSucceeds
          match st2.args.destination, st2.args.file_name with
          | .str dst, .str fn =>
            let new_name := dst ++ "/" ++ fn
            let call := convert_audio new_name
            match w.conv with
            | .success =>
              .ok { args := st2.args, PID := st2.PID,
                    disk := clean_session w.disk,
                    notifs := [("Recording stopped", "Audio saved to " ++ new_name)],
                    ffmpegCalls := [call], savedRecord := Option.none,
                    stopLog := some slog, signaled := [p] }
            | .calledProcessError =>
              .ok { args := st2.args, PID := st2.PID,
                    disk := clean_session w.disk,
                    notifs := [("Recording stopped", "Failed to convert audio")],
                    ffmpegCalls := [call], savedRecord := Option.none,
                    stopLog := some slog, signaled := [p] }
            | .fileNotFound => .err .encoderNotFound w.disk
          | _, _ => .err .typeError w.disk

/-- Namespace attribute `file_name` of a finished invocation. -/
def outFileName : MainOutcome → Option PyVal
  | .ok r => some r.args.file_name
  | .err _ _ => Option.none

/-- Namespace attribute `input` of a finished invocation. -/
def outInput : MainOutcome → Option PyVal
  | .ok r => some r.args.input
  | .err _ _ => Option.none

/-- The ffmpeg invocations of a finished invocation. -/
def outFfmpeg : MainOutcome → List (List String)
  | .ok r => r.ffmpegCalls
  | .err _ _ => []

/-- Final disk state of an invocation (at the raise, for an aborted
one). -/
def outDisk : MainOutcome → Disk
  | .ok r => r.disk
  | .err _ d => d

/-- Command-line namespace as argparse builds it from the flags. -/
def mkArgs (fn dst : Option String) (fmt : String) (envFlag : Bool)
    (inp : Option String) : Args :=
  { file_name := match fn with | some s => .str s | Option.none => .none
    destination := match dst with | some s => .str s | Option.none => .none
    format := .str fmt
    env := .bool envFlag
    input := match inp with | some s => .str s | Option.none => .none }

/-- A well-formed four-key session record with pid 4242, the given file
name and destination, and format `"mp3"`. -/
def recFD (f d : String) : List (String × PyVal) :=
  [("pid", PyVal.int 4242), ("file_name", PyVal.str f),
   ("destination", PyVal.str d), ("format", PyVal.str "mp3")]

/-- The record with file name `"b.mp3"` and destination `"/d"`. -/
def stdRecord : List (String × PyVal) := recFD "b.mp3" "/d"

/-- A stop-path world: raw buffer present, record present, pgrep finds
pid 4242, kill succeeds, ffmpeg outcome `c`. -/
def stopWorldFD (f d : String) (c : ConvOutcome) : World :=
  { disk := ⟨true, .record (recFD f d)⟩, envFile := [], pgrepPids := ["4242"],
    launchOk := true, launchedPid := 555, killSucceeds := true, conv := c,
    now := "T", home := "/home/u" }

/-- The standard stop-path world with a successful conversion. -/
def stopWorld : World := stopWorldFD "b.mp3" "/d" .success

/-- Bare command line: no flags besides the defaults. -/
def cli0 : Args := mkArgs Option.none Option.none "mp3" false Option.none

/-- A stop-path world whose record only has a `pid` key (no file name,
destination or format fields). -/
def pidOnlyWorld : World :=
  { stopWorld with disk := ⟨true, .record [("pid", PyVal.int 4242)]⟩ }

/-- A stop-path world whose `_info.json` is present but unparsable. -/
def corruptWorld : World := { stopWorld with disk := ⟨true, .corrupt⟩ }

/-- A start-path world (pgrep finds nothing) where the parec launch
fails; the disk starts clean. -/
def startFailWorld : World :=
  { disk := ⟨false, .absent⟩, envFile := [], pgrepPids := [], launchOk := false,
    launchedPid := 555, killSucceeds := true, conv := .success,
    now := "T", home := "/home/u" }

/-- A start-path world with a stale record on disk (no capture process
is running) and a successful parec launch (pid 555). -/
def staleStartWorld : World :=
  { stopWorld with pgrepPids := [], disk := ⟨false, .record stdRecord⟩ }

/-- Bare command line plus `--input dev` (the flag needed to start). -/
def cli0dev : Args := mkArgs Option.none Option.none "mp3" false (some "dev")

/-- The argparse namespace with only `--env` set. -/
def envCli : Args := mkArgs Option.none Option.none "mp3" true Option.none

/-- A stop-path world whose `.env` file carries an `input` key. -/
def envStopWorld : World :=
  { stopWorld with envFile := [("input", PyVal.str "envdev")] }

/-- C1 counterexample: on a stop-path invocation with command-line
`--file_name a.mp3` and a persisted record whose file name is `b.mp3`,
the program uses `b.mp3` — `add_argument` overwrites the explicit flag
with the record's field, so the claimed precedence (command line wins)
is false. -/
theorem C1_counterexample :
    outFileName (main' (mkArgs (some "a.mp3") (some "/cli") "mp3" false Option.none) stopWorld)
      = some (PyVal.str "b.mp3") ∧
    PyVal.str "b.mp3" ≠ PyVal.str "a.mp3" :=
  ⟨rfl, by decide⟩

/-- C1 amended: on the stop path the persisted record's fields override
the explicit command-line values (for any prior namespace state the
second `parse_args` pass replaces `file_name`, `destination` and
`format` with the record's values and puts the record's `pid` in the
global); the command-line value is used only when the record has no
such field (e.g. a record carrying only a `pid` key). -/
theorem C1_record_overrides_cli_on_stop :
    (∀ (st : ArgsPid) (e : List (String × PyVal)) (rpid rf rd rfm : PyVal),
      parse_args e false st
        (.record [("pid", rpid), ("file_name", rf), ("destination", rd), ("format", rfm)])
        = .ok ⟨{ st.args with file_name := rf, destination := rd, format := rfm }, rpid⟩) ∧
    (∀ cf : String,
      outFileName (main' (mkArgs (some cf) (some "/cli") "mp3" false Option.none) stopWorld)
        = some (PyVal.str "b.mp3")) ∧
    outFileName (main' (mkArgs (some "a.mp3") (some "/d") "mp3" false Option.none) pidOnlyWorld)
      = some (PyVal.str "a.mp3") :=
  ⟨fun _st _e _rpid _rf _rd _rfm => rfl, fun _cf => rfl, rfl⟩

/-- C2 counterexample: when the encoder cannot be run at all
(`FileNotFoundError` from `subprocess.run`, not a `CalledProcessError`),
the exception is not caught, the invocation dies, and neither the
Session Record nor the Raw Buffer is removed — cleanup is skipped. -/
theorem C2_counterexample :
    main' cli0 (stopWorldFD "b.mp3" "/d" .fileNotFound)
      = .err .encoderNotFound ⟨true, .record stdRecord⟩ ∧
    (outDisk (main' cli0 (stopWorldFD "b.mp3" "/d" .fileNotFound))).raw = true ∧
    (outDisk (main' cli0 (stopWorldFD "b.mp3" "/d" .fileNotFound))).info ≠ .absent :=
  ⟨rfl, rfl, by decide⟩

/-- C2 amended: on the stop path cleanup runs when the encoder exits
non-zero (`CalledProcessError` is caught, a failure notification is
shown, and both artifacts are removed) and when it succeeds; but when
the encoder cannot be run at all the exception propagates and cleanup
is skipped, leaving both artifacts on disk. -/
theorem C2_cleanup_only_when_encoder_runs (f d : String) :
    main' cli0 (stopWorldFD f d .calledProcessError)
      = .ok { args := ⟨.str f, .str d, .str "mp3", .bool false, .none⟩,
              PID := .int 4242, disk := ⟨false, .absent⟩,
              notifs := [("Recording stopped", "Failed to convert audio")],
              ffmpegCalls := [convert_audio (d ++ "/" ++ f)],
              savedRecord := Option.none,
              stopLog := some (.info, "Recording stopped (PID 4242)"),
              signaled := [4242] } ∧
    main' cli0 (stopWorldFD f d .success)
      = .ok { args := ⟨.str f, .str d, .str "mp3", .bool false, .none⟩,
              PID := .int 4242, disk := ⟨false, .absent⟩,
              notifs := [("Recording stopped", "Audio saved to " ++ (d ++ "/" ++ f))],
              ffmpegCalls := [convert_audio (d ++ "/" ++ f)],
              savedRecord := Option.none,
              stopLog := some (.info, "Recording stopped (PID 4242)"),
              signaled := [4242] } ∧
    main' cli0 (stopWorldFD f d .fileNotFound)
      = .err .encoderNotFound ⟨true, .record (recFD f d)⟩ :=
  ⟨rfl, rfl, rfl⟩

/-- C3 counterexample: with the raw buffer absent but the record
present, `clean_session` removes nothing — `os.remove` on the raw
buffer raises first and the single `except` skips the record's
removal, so the two artifacts are not deleted together. -/
theorem C3_counterexample :
    clean_session ⟨false, .record stdRecord⟩ = ⟨false, .record stdRecord⟩ ∧
    InfoFile.record stdRecord ≠ InfoFile.absent :=
  ⟨rfl, by decide⟩

/-- C3 amended: `clean_session` never signals an error and is
idempotent, and when the raw buffer is present it deletes both
artifacts; but when the raw buffer is absent the record (if any) is
left on disk, because removal aborts at the first failure. -/
theorem C3_clean_session_stops_at_first_failure (d : Disk) :
    clean_session d = ⟨false, if d.raw then .absent else d.info⟩ ∧
    clean_session (clean_session d) = clean_session d := by
  rcases d with ⟨raw, info⟩
  cases raw <;> cases info <;> simp [clean_session, removeRaw, removeInfo]

/-- C4 counterexample: with `_info.json` present but unparsable, the
very first `parse_args` pass raises an uncaught `JSONDecodeError` — the
invocation aborts with the state untouched instead of proceeding with
defaults: no process is signaled, no conversion is attempted
(`outFfmpeg` is empty) and nothing is cleared. -/
theorem C4_counterexample :
    main' cli0 corruptWorld = .err .jsonDecodeError ⟨true, .corrupt⟩ ∧
    outFfmpeg (main' cli0 corruptWorld) = [] ∧
    (outDisk (main' cli0 corruptWorld)).info = .corrupt :=
  ⟨rfl, rfl, rfl⟩

/-- C4 amended: `load_session_info` returns the parsed record when the
file is present and well-formed and an empty result when it is absent,
but a present-and-unparsable file raises an error that nothing
catches: any invocation without `--env` (so the first pass reads the
record) dies immediately with `JSONDecodeError`, before the probe, the
signal, the conversion or the cleanup, leaving the disk unchanged. -/
theorem C4_corrupt_record_aborts :
    load_session_info .absent = .ok Option.none ∧
    (∀ kvs, load_session_info (.record kvs) = .ok (some kvs)) ∧
    load_session_info .corrupt = .error .jsonDecodeError ∧
    (∀ (a : Args) (w : World), truthy a.env = false → w.disk.info = .corrupt →
      main' a w = .err .jsonDecodeError w.disk) :=
  ⟨rfl, fun kvs => rfl, rfl, fun a w h hc => by
    unfold main' parse_args
    simp only [Bool.true_and, h, hc, load_session_info]
    rfl⟩

/-- Witness for C4: the no-flag command line and the corrupt-record
world satisfy the hypotheses, and the invocation aborts there. -/
theorem C4_witness :
    truthy cli0.env = false ∧ corruptWorld.disk.info = .corrupt ∧
    main' cli0 corruptWorld = .err .jsonDecodeError corruptWorld.disk :=
  ⟨rfl, rfl, C4_corrupt_record_aborts.2.2.2 cli0 corruptWorld rfl rfl⟩

/-- C5 counterexample: the command line gives no `--input`, yet on a
stop-path invocation (pgrep finds pid 4242) run with `--env`, the final
configuration's `input` field comes from the `.env` file — the
environment overlay is consulted on the stop path too, because
`parse_args(".env", True)` runs before the probe. -/
theorem C5_counterexample :
    envCli.input = PyVal.none ∧
    check_process_exists envStopWorld.pgrepPids ≠ "" ∧
    outInput (main' envCli envStopWorld) = some (PyVal.str "envdev") :=
  ⟨rfl, by decide, rfl⟩

/-- C5 amended: without `--env` no configuration field ever takes its
value from the environment file — the whole invocation is independent
of the environment file's contents on both paths; the claim's
stop-path exclusion does not hold when `--env` is given. -/
theorem C5_env_file_ignored_without_flag (a : Args) (w : World)
    (e' : List (String × PyVal)) (h : truthy a.env = false) :
    main' a w = main' a { w with envFile := e' } := by
  unfold main' parse_args
  simp only [Bool.true_and, h]
  rfl

/-- Witness for C5: with the bare command line the stop-path invocation
is unchanged when the environment file gains a `file_name` entry. -/
theorem C5_witness :
    truthy cli0.env = false ∧
    main' cli0 stopWorld
      = main' cli0 { stopWorld with envFile := [("file_name", PyVal.str "zzz.mp3")] } :=
  ⟨rfl, C5_env_file_ignored_without_flag cli0 stopWorld
    [("file_name", PyVal.str "zzz.mp3")] rfl⟩

/-- C6 counterexample: with two parec instances (pids 123 and 456) the
probe returns `"123456"` — the newline-stripped concatenation of all
matches — not the first match's identifier `"123"`. -/
theorem C6_counterexample :
    check_process_exists ["123", "456"] = "123456" ∧
    ("123456" : String) ≠ "123" :=
  ⟨rfl, by decide⟩

/-- C6 amended: the probe returns the concatenation of all matching
identifiers with the newlines removed — the empty string when none is
running, and the single identifier exactly when one instance matches. -/
theorem C6_probe_concatenates_all_pids (pids : List String)
    (h : ∀ p ∈ pids, '\n' ∉ p.data) :
    (check_process_exists pids).data = (pids.map String.data).flatten ∧
    (∀ p, '\n' ∉ p.data → check_process_exists [p] = p) := by
  constructor
  · induction pids with
    | nil => rfl
    | cons p ps ih =>
      have hp : '\n' ∉ p.data := h p (List.mem_cons_self p ps)
      have hps : ∀ q ∈ ps, '\n' ∉ q.data := fun q hq => h q (List.mem_cons_of_mem p hq)
      show ((p.data ++ '\n' :: pgrepOutput ps).filter (fun c => c ≠ '\n')) =
        p.data ++ (ps.map String.data).flatten
      rw [List.filter_append]
      have h1 : p.data.filter (fun c => decide (c ≠ '\n')) = p.data :=
        List.filter_eq_self.mpr (fun a ha => by
          simp only [decide_eq_true_eq]
          exact fun contra => hp (contra ▸ ha))
      have h2 : ('\n' :: pgrepOutput ps).filter (fun c => decide (c ≠ '\n'))
          = (pgrepOutput ps).filter (fun c => decide (c ≠ '\n')) := by
        simp [List.filter_cons]
      rw [h1, h2]
      have h3 := ih hps
      simp only [check_process_exists] at h3
      rw [h3]
  · intro p hp
    have h1 : p.data.filter (fun c => decide (c ≠ '\n')) = p.data :=
      List.filter_eq_self.mpr (fun a ha => by
        simp only [decide_eq_true_eq]
        exact fun contra => hp (contra ▸ ha))
    show (⟨(p.data ++ ['\n']).filter (fun c => decide (c ≠ '\n'))⟩ : String) = p
    rw [List.filter_append, h1]
    simp

/-- Witness for C6: the two-instance process table satisfies the
no-newline hypothesis and the probe output is the concatenation. -/
theorem C6_witness :
    (∀ p ∈ ["123", "456"], '\n' ∉ p.data) ∧
    (check_process_exists ["123", "456"]).data
      = ((["123", "456"]).map String.data).flatten :=
  ⟨by decide, (C6_probe_concatenates_all_pids ["123", "456"] (by decide)).1⟩

/-- C7 counterexample: `stop_recording` on an already-gone process logs
at error level, not at warning level as the claim states. -/
theorem C7_counterexample :
    (stop_recording 4242 false).1 = LogLevel.error ∧
    LogLevel.error ≠ LogLevel.warning :=
  ⟨rfl, by decide⟩

/-- C7 amended: signaling an already-gone process logs an error-level
message (not a warning); the `ProcessLookupError` is caught and not
propagated, so the stop sequence still runs the conversion and the
cleanup and the invocation completes normally. -/
theorem C7_gone_process_error_logged_not_propagated (p : Int) (f d : String) :
    (stop_recording p false).1 = LogLevel.error ∧
    main' cli0 { stopWorldFD f d .success with killSucceeds := false }
      = .ok { args := ⟨.str f, .str d, .str "mp3", .bool false, .none⟩,
              PID := .int 4242, disk := ⟨false, .absent⟩,
              notifs := [("Recording stopped", "Audio saved to " ++ (d ++ "/" ++ f))],
              ffmpegCalls := [convert_audio (d ++ "/" ++ f)],
              savedRecord := Option.none,
              stopLog := some (.error, "Process with PID 4242 not found"),
              signaled := [4242] } :=
  ⟨rfl, rfl⟩

/-- C8 counterexample: the start path opens the raw buffer for writing
(creating it) before attempting the parec launch; when the launch
fails, the invocation aborts with no Session Record persisted but with
the freshly created Raw Buffer left on disk — partial session state
remains. -/
theorem C8_counterexample :
    main' cli0dev startFailWorld = .err .launchError ⟨true, .absent⟩ ∧
    (outDisk (main' cli0dev startFailWorld)).raw = true ∧
    startFailWorld.disk.raw = false :=
  ⟨rfl, rfl, rfl⟩

/-- C8 amended: on every start-path invocation whose launch fails, the
invocation aborts before `save_session_info` runs, so the info file is
exactly as it was; but the raw buffer has already been created or
truncated by `open(RAW_FILE_NAME, "wb")` and remains on disk. -/
theorem C8_failed_launch_keeps_info_leaves_raw (a : Args) (w : World)
    (h1 : w.pgrepPids = []) (h2 : w.launchOk = false)
    (h3 : w.disk.info ≠ .corrupt) :
    main' a w = .err .launchError ⟨true, w.disk.info⟩ := by
  rcases w with ⟨⟨raw0, info⟩, envF, pids, lok, lpid, kill, cv, now0, home0⟩
  simp only at h1 h2 h3
  subst h1 h2
  cases henv : truthy a.env <;> cases info <;>
    first
      | exact absurd rfl h3
      | (unfold main' parse_args
         simp only [Bool.true_and, henv, load_session_info]
         rfl)

/-- Witness for C8: the clean-disk failed-launch world satisfies the
hypotheses and the aborted invocation leaves the raw buffer behind. -/
theorem C8_witness :
    startFailWorld.pgrepPids = [] ∧ startFailWorld.launchOk = false ∧
    startFailWorld.disk.info ≠ InfoFile.corrupt ∧
    main' cli0dev startFailWorld = .err .launchError ⟨true, startFailWorld.disk.info⟩ :=
  ⟨rfl, rfl, by decide,
    C8_failed_launch_keeps_info_leaves_raw cli0dev startFailWorld rfl rfl (by decide)⟩

/-- C9 counterexample: two stop-path invocations identical except for
`--format` (`"ogg"` vs `"wav"`) hand the encoder exactly the same
command, and that command nowhere contains the requested format — the
output is not encoded "in the requested format parameter". -/
theorem C9_counterexample :
    outFfmpeg (main' (mkArgs (some "x.mp3") (some "/d") "ogg" false Option.none) pidOnlyWorld)
      = outFfmpeg (main' (mkArgs (some "x.mp3") (some "/d") "wav" false Option.none) pidOnlyWorld) ∧
    outFfmpeg (main' (mkArgs (some "x.mp3") (some "/d") "ogg" false Option.none) pidOnlyWorld)
      = [convert_audio "/d/x.mp3"] ∧
    "ogg" ∉ convert_audio "/d/x.mp3" :=
  ⟨rfl, rfl, by decide⟩

/-- C9 amended: the encoder is instructed to interpret the raw buffer
as raw little-endian 16-bit PCM at 48 kHz with 2 channels
(`-f s16le -ar 48000 -ac 2`) and to write to the output path, but the
format parameter is not passed to it: for every value of `--format`
the encoder argv is the same list, determined by the output path
alone. -/
theorem C9_format_not_passed_to_encoder (v fn dst : String) :
    outFfmpeg (main' (mkArgs (some fn) (some dst) v false Option.none) pidOnlyWorld)
      = [convert_audio (dst ++ "/" ++ fn)] ∧
    convert_audio (dst ++ "/" ++ fn)
      = ["ffmpeg", "-f", "s16le", "-ar", "48000", "-ac", "2", "-i",
         RAW_FILE_NAME, dst ++ "/" ++ fn] :=
  ⟨rfl, rfl⟩

/-- C10: without `--env`, the initial `parse_args(".env", True)` pass
falls to its else-branch and applies any persisted record's fields over
the command-line values (first conjunct, for arbitrary namespace and
record field values); hence a stale record on disk with no capture
process running overrides the command-line file name, destination and
format on the next start-path invocation, and the newly saved record
carries the stale record's values (second conjunct, for every
command-line choice). -/
theorem C10_stale_record_overrides_cli :
    (∀ (a : Args) (p : PyVal) (e : List (String × PyVal)) (rpid rf rd rfm : PyVal),
      truthy a.env = false →
      parse_args e true ⟨a, p⟩
        (.record [("pid", rpid), ("file_name", rf), ("destination", rd), ("format", rfm)])
        = .ok ⟨{ a with file_name := rf, destination := rd, format := rfm }, rpid⟩) ∧
    (∀ cf cd cfm : String,
      main' (mkArgs (some cf) (some cd) cfm false (some "dev")) staleStartWorld
        = .ok { args := ⟨.str "b.mp3", .str "/d", .str "mp3", .bool false, .str "dev"⟩,
                PID := .int 4242,
                disk := ⟨true, .record [("pid", PyVal.int 555),
                                        ("file_name", PyVal.str "b.mp3"),
                                        ("destination", PyVal.str "/d"),
                                        ("format", PyVal.str "mp3")]⟩,
                notifs := [("Recording Started", "Capturing audio...")],
                ffmpegCalls := [],
                savedRecord := some [("pid", PyVal.int 555),
                                     ("file_name", PyVal.str "b.mp3"),
                                     ("destination", PyVal.str "/d"),
                                     ("format", PyVal.str "mp3")],
                stopLog := Option.none, signaled := [] }) :=
  ⟨fun a p e rpid rf rd rfm h => by
      unfold parse_args
      simp only [Bool.true_and, h]
      rfl,
    fun cf cd cfm => rfl⟩

/-- Witness for C10: both conjuncts applied at concrete inputs — the
bare command line with a concrete stale record, and explicit
command-line values `c.mp3`, `/c`, `wav` overridden by the stale
record's `b.mp3`, `/d`, `mp3`. -/
theorem C10_witness :
    truthy cli0.env = false ∧
    parse_args [] true ⟨cli0, PyVal.none⟩
        (.record [("pid", PyVal.int 1), ("file_name", PyVal.str "s.mp3"),
                  ("destination", PyVal.str "/s"), ("format", PyVal.str "ogg")])
      = .ok ⟨⟨PyVal.str "s.mp3", PyVal.str "/s", PyVal.str "ogg",
              PyVal.bool false, PyVal.none⟩, PyVal.int 1⟩ ∧
    main' (mkArgs (some "c.mp3") (some "/c") "wav" false (some "dev")) staleStartWorld
      = .ok { args := ⟨.str "b.mp3", .str "/d", .str "mp3", .bool false, .str "dev"⟩,
              PID := .int 4242,
              disk := ⟨true, .record [("pid", PyVal.int 555),
                                      ("file_name", PyVal.str "b.mp3"),
                                      ("destination", PyVal.str "/d"),
                                      ("format", PyVal.str "mp3")]⟩,
              notifs := [("Recording Started", "Capturing audio...")],
              ffmpegCalls := [],
              savedRecord := some [("pid", PyVal.int 555),
                                   ("file_name", PyVal.str "b.mp3"),
                                   ("destination", PyVal.str "/d"),
                                   ("format", PyVal.str "mp3")],
              stopLog := Option.none, signaled := [] } :=
  ⟨rfl,
    C10_stale_record_overrides_cli.1 cli0 PyVal.none []
      (PyVal.int 1) (PyVal.str "s.mp3") (PyVal.str "/s") (PyVal.str "ogg") rfl,
    C10_stale_record_overrides_cli.2 "c.mp3" "/c" "wav"⟩
